import Mathlib

/-!
Verification of the geometric-term enumeration, canonicalization,
classification, explicit-specification parsing and table-saving logic of
`geometry_analysis_step` (file src/geometry_analysis_step/geometry_analysis.py).

The embedding follows the Python source closely:
  * atom ids are 1-based Python ints, modelled as `Int`;
  * `symbol` is the 0-based list of element symbols; `symbol[i - 1]` with
    Python's negative-index wrap-around is `symAt`;
  * Python string comparison (by code point) is `strLtb`; Python's stable
    `sorted` is the stable insertion sort `isort`;
  * the bond lists `iat`, `jat` hold the 1-based atom indices of the two
    ends of each bond, exactly as `run` builds them;
  * the `neighbors` sets are `neighborsOf` and their `sorted(...)` form is
    `sortedNeighbors`;
  * Python exceptions that escape are `Except.error`; caught ones
    (warn-and-skip) leave the fold with `Except.ok`.
-/

set_option linter.unusedVariables false

/-- Lexicographic comparison of two character lists by code point: the
semantics of Python's `<` on strings (and of the comparisons `el1 < el2`
etc. in `run`). -/
def charsLt : List Char → List Char → Bool
  | [], [] => false
  | [], _ :: _ => true
  | _ :: _, [] => false
  | a :: as, b :: bs =>
    if a.val < b.val then true
    else if b.val < a.val then false
    else charsLt as bs

/-- Python's `a < b` for strings. -/
def strLtb (a b : String) : Bool := charsLt a.toList b.toList

/-- Stable insertion into a sorted list (auxiliary for `isort`). -/
def insertLe {α : Type} (le : α → α → Bool) (x : α) : List α → List α
  | [] => [x]
  | y :: ys => if le x y then x :: y :: ys else y :: insertLe le x ys

/-- Stable ascending sort, the semantics of Python's `sorted`. With
`le x y = ¬(key y < key x)` equal keys keep their input order, as Python's
stable sort does. -/
def isort {α : Type} (le : α → α → Bool) : List α → List α
  | [] => []
  | x :: xs => insertLe le x (isort le xs)

/-- Comparison used by `sorted(..., key=lambda tmp: tmp[0])` in the
out-of-plane code: order `(symbol, atom)` pairs by the symbol only,
stably. -/
def symPairLe (a b : String × Int) : Bool := !(strLtb b.1 a.1)

/-- Comparison for `sorted(neighbors[j])` (Python ints ascending). -/
def intLe (a b : Int) : Bool := decide (a ≤ b)

/-- Python list indexing `l[i]` for string lists: non-negative indices from
the front, negative indices wrap from the back. (Out-of-range access, which
raises IndexError in Python, yields "" here; it does not occur in the runs
modelled below.) -/
def pyNth (l : List String) (i : Int) : String :=
  if 0 ≤ i then l.getD i.toNat "" else l.getD (l.length - i.natAbs) ""

/-- The element symbol of atom `i`: `symbol[i - 1]` in the source, with
1-based atom index `i`. -/
def symAt (symbol : List String) (i : Int) : String := pyNth symbol (i - 1)

/-- The bond list as `run` iterates it: `zip(iat, jat)`
(src/geometry_analysis_step/geometry_analysis.py line 463 ff.). -/
def bondPairs (iat jat : List Int) : List (Int × Int) := iat.zip jat

/-- The set `neighbors[j]` built at lines 474-477 of
src/geometry_analysis_step/geometry_analysis.py: every atom bonded to `j`,
each once (the source keeps a Python set; its iteration order is
unspecified, so any duplicate-free order is a faithful model). -/
def neighborsOf (iat jat : List Int) (j : Int) : List Int :=
  (((bondPairs iat jat).filterMap fun p => if p.1 = j then some p.2 else none) ++
      ((bondPairs iat jat).filterMap fun p => if p.2 = j then some p.1 else none)).dedup

/-- The list `sorted(neighbors[j])` used by the angle and dihedral loops. -/
def sortedNeighbors (iat jat : List Int) (j : Int) : List Int :=
  isort intLe (neighborsOf iat jat j)

/-- Bond canonicalization, lines 509-521: keep `(i, j)` when
`symbol[i-1] < symbol[j-1]`, otherwise (also on ties) emit `(j, i)`. -/
def canonBond (symbol : List String) (i j : Int) : Int × Int :=
  if strLtb (symAt symbol i) (symAt symbol j) then (i, j) else (j, i)

/-- The bond terms of a run without explicit specification (lines 508-529):
one canonicalized pair per entry of `zip(iat, jat)`. -/
def bondsEnum (symbol : List String) (iat jat : List Int) : List (Int × Int) :=
  (bondPairs iat jat).map fun p => canonBond symbol p.1 p.2

/-- All pairs `(tmp[c], tmp[k])` with `c < k`: the double loop
`for c, i in enumerate(tmp): for k in tmp[c + 1:]` of the angle code. -/
def anglePairs : List Int → List (Int × Int)
  | [] => []
  | i :: rest => (rest.map fun k => (i, k)) ++ anglePairs rest

/-- The angle terms of a run without explicit specification, lines 636-655 of
src/geometry_analysis_step/geometry_analysis.py. The outer loop is
`for j in range(n_atoms)`, i.e. over 0, 1, ..., n_atoms - 1 although atom
ids are 1-based; each unordered neighbor pair of `j` produces one term
`(i, j, k)` oriented so `symbol[i-1] < symbol[k-1]` (swapped otherwise). -/
def anglesEnum (n_atoms : Nat) (symbol : List String) (iat jat : List Int) :
    List (Int × Int × Int) :=
  (List.range n_atoms).flatMap fun jn =>
    let j : Int := (jn : Int)
    let el2 := symAt symbol j
    (anglePairs (sortedNeighbors iat jat j)).map fun p =>
      if strLtb (symAt symbol p.1) (symAt symbol p.2) then (p.1, j, p.2)
      else (p.2, j, p.1)

/-- The dihedral terms of a run without explicit specification, lines
804-836: for each bond `(j, k)`, each `i` in `sorted(neighbors[j])` with
`i != k` and each `l` in `sorted(neighbors[k])` with `l != j` (note: `i = l`
is not excluded), oriented by the element symbols of the pivot atoms, ties
broken by the outer atoms. -/
def dihedralsEnum (symbol : List String) (iat jat : List Int) :
    List (Int × Int × Int × Int) :=
  (bondPairs iat jat).flatMap fun bp =>
    let j := bp.1
    let k := bp.2
    let el2 := symAt symbol j
    let el3 := symAt symbol k
    ((sortedNeighbors iat jat j).filter fun i => i != k).flatMap fun i =>
      let el1 := symAt symbol i
      ((sortedNeighbors iat jat k).filter fun l => l != j).map fun l =>
        let el4 := symAt symbol l
        if el2 = el3 then
          if strLtb el1 el4 then (i, j, k, l) else (l, k, j, i)
        else if strLtb el2 el3 then (i, j, k, l)
        else (l, k, j, i)

/-- The out-of-plane terms of a run without explicit specification, lines
1001-1019: the loop is again `for j in range(n_atoms)` over 0-based loop
indices while atom ids are 1-based; an atom with exactly 3 neighbors yields
one term whose non-center atoms are its neighbors stably sorted by element
symbol, placed as (smallest, center, middle, largest). -/
def oopsEnum (n_atoms : Nat) (symbol : List String) (iat jat : List Int) :
    List (Int × Int × Int × Int) :=
  (List.range n_atoms).filterMap fun jn =>
    let j : Int := (jn : Int)
    let ns := neighborsOf iat jat j
    if ns.length = 3 then
      match isort symPairLe (ns.map fun i => (symAt symbol i, i)) with
      | [e1, e2, e3] => some (e1.2, j, e2.2, e3.2)
      | _ => none
    else none

/-- The four counts `n_bonds`, `n_angles`, `n_dihedrals`, `n_oops` that
`run` reports for a run without explicit specification: each is the length
of the corresponding `values` list (lines 529, 673, 876, 1044). -/
def runCountsDerived (n_atoms : Nat) (symbol : List String) (iat jat : List Int) :
    Nat × Nat × Nat × Nat :=
  ((bondsEnum symbol iat jat).length,
    (anglesEnum n_atoms symbol iat jat).length,
    (dihedralsEnum symbol iat jat).length,
    (oopsEnum n_atoms symbol iat jat).length)

/-- The parsed explicit specification, `target` in the source: the four
lists filled at lines 241-264. -/
structure Target where
  bonds : List (Int × Int)
  angles : List (Int × Int × Int)
  dihedrals : List (Int × Int × Int × Int)
  oops : List (Int × Int × Int × Int)

/-- The digits of a decimal literal as Python's `int` reads them (no digit
at all is a failure; underscores and exotic digits are not modelled — the
inputs below contain none). -/
def digitsVal? (cs : List Char) : Option Nat :=
  if cs = [] then none
  else
    cs.foldl
      (fun acc c =>
        match acc with
        | none => none
        | some n => if c.isDigit then some (n * 10 + (c.toNat - 48)) else none)
      (some 0)

/-- Python's `int(s)` on a field of a specification token: optional sign,
then decimal digits; `none` models the ValueError `int` raises otherwise. -/
def pyInt? (s : String) : Option Int :=
  match s.toList with
  | [] => none
  | c :: rest =>
    if c = '+' then (digitsVal? rest).map fun n => (n : Int)
    else if c = '-' then (digitsVal? rest).map fun n => -(n : Int)
    else (digitsVal? (c :: rest)).map fun n => (n : Int)

/-- Python's `s.split(sep)` for a single separator character: splits at
every occurrence, keeping empty fields. -/
def splitOnChar (c : Char) : List Char → List (List Char)
  | [] => [[]]
  | x :: xs =>
    if x = c then [] :: splitOnChar c xs
    else
      match splitOnChar c xs with
      | [] => [[x]]
      | f :: rest => (x :: f) :: rest

/-- The token list `specification.replace(",", " ").split()` of line 239:
commas become spaces, then splitting on whitespace discards empty tokens
(whitespace other than the space character is not modelled; the
specifications below contain none). -/
def pyTokenize (specification : String) : List String :=
  ((splitOnChar ' ' (specification.toList.map fun c => if c = ',' then ' ' else c)).filter
      fun t => t ≠ []).map String.mk

/-- One iteration of the token loop at lines 245-264 of
src/geometry_analysis_step/geometry_analysis.py. A token starting "oop" is
parsed inside `try/except`, so a wrong field count or a non-integer field is
a caught warning (`Except.ok` with `t` unchanged). Any other token is split
on "-"; with 2, 3 or 4 fields the source calls `int()` with no `try`, so a
non-integer field raises an uncaught ValueError (`Except.error`); any other
field count is a caught warning. -/
def parseToken (t : Target) (term : String) : Except String Target :=
  let cs := term.toList
  if cs.take 3 = "oop".toList then
    match (splitOnChar '-' (cs.drop 3)).map fun f => pyInt? (String.mk f) with
    | [some i, some j, some k, some l] =>
      Except.ok { t with oops := t.oops ++ [(i, j, k, l)] }
    | _ => Except.ok t
  else
    match (splitOnChar '-' cs).map fun f => pyInt? (String.mk f) with
    | [some i, some j] => Except.ok { t with bonds := t.bonds ++ [(i, j)] }
    | [_, _] => Except.error term
    | [some i, some j, some k] => Except.ok { t with angles := t.angles ++ [(i, j, k)] }
    | [_, _, _] => Except.error term
    | [some i, some j, some k, some l] =>
      Except.ok { t with dihedrals := t.dihedrals ++ [(i, j, k, l)] }
    | [_, _, _, _] => Except.error term
    | _ => Except.ok t

/-- The whole explicit-specification parse of lines 236-264: fold the token
loop; an uncaught exception aborts it (and with it the run). -/
def parseSpec (specification : String) : Except String Target :=
  (pyTokenize specification).foldlM parseToken
    { bonds := [], angles := [], dihedrals := [], oops := [] }

/-- The out-of-plane stage of a run WITH an explicit specification, lines
991-1000: the loop iterates `target["dihedrals"]` (not `target["oops"]`),
and its body only rebinds locals — it never appends to `_is`, `_js`, `_ks`,
`_ls` (or the symbol lists), so the four index lists stay as initialized. -/
def oopStageSpecified (symbol : List String) (target : Target) :
    List Int × List Int × List Int × List Int :=
  target.dihedrals.foldl
    (fun acc t =>
      let el1 := symAt symbol t.1
      let el2 := symAt symbol t.2.1
      let el3 := symAt symbol t.2.2.1
      let el4 := symAt symbol t.2.2.2
      let els := isort symPairLe [(el1, t.1), (el3, t.2.2.1), (el4, t.2.2.2)]
      acc)
    ([], [], [], [])

/-- The dihedral classifier, the `if/elif` chain at lines 862-874 of
src/geometry_analysis_step/geometry_analysis.py, as a first-match function:
`none` models a value for which no branch fires (no description appended). -/
def classify (phi : ℚ) : Option String :=
  if -30 ≤ phi ∧ phi ≤ 30 then some "C  = synperiplaner"
  else if 30 < phi ∧ phi ≤ 90 then some "G+ = +synclinal"
  else if 90 < phi ∧ phi ≤ 150 then some "A+ = +anticlinal"
  else if 150 < phi ∨ phi < -150 then some "T  = antiperiplaner"
  else if 150 ≤ phi ∧ phi < -90 then some "A- = -anticlinal"
  else if phi ≤ 90 ∧ phi < -30 then some "G- = -synclinal"
  else none

/-- Componentwise difference of 3D points (`p1 - p2` on numpy arrays). -/
def sub3 (p q : ℚ × ℚ × ℚ) : ℚ × ℚ × ℚ :=
  (p.1 - q.1, p.2.1 - q.2.1, p.2.2 - q.2.2)

/-- Squared Euclidean norm. `np.linalg.norm(v)` is its (real) square root,
which is zero exactly when this rational quantity is zero. -/
def normSq (v : ℚ × ℚ × ℚ) : ℚ := v.1 * v.1 + v.2.1 * v.2.1 + v.2.2 * v.2.2

/-- The squared norms of the two vectors `r21 = p1 - p2` and `r23 = p3 - p2`
that `angle` (lines 46-52) divides by when it normalizes; the source
performs the division unconditionally, with no zero check and no exception
path. -/
def angleDivisorsSq (p1 p2 p3 : ℚ × ℚ × ℚ) : ℚ × ℚ :=
  (normSq (sub3 p1 p2), normSq (sub3 p3 p2))

/-- The format dispatch of `GeometryAnalysis._save_table`, lines 1176-1207:
the suffix picks the pandas writer, anything else raises a RuntimeError
naming the extension and the filename. (The source wraps the extension and
the filename in single quotes inside the message; the quotes are elided
here.) -/
def saveTableFormat (file_type filename : String) : Except String String :=
  if file_type = ".csv" then Except.ok "to_csv"
  else if file_type = ".json" then Except.ok "to_json"
  else if file_type = ".xlsx" then Except.ok "to_excel"
  else if file_type = ".txt" then Except.ok "to_string"
  else
    Except.error
      ("Save table: cannot handle format " ++ file_type ++ (" for file " ++ filename))

/-- The sequence of `self._save_table(...)` calls a run performs, as `run`
performs them: one after the other, with no `try/except` around any of
them, so the RuntimeError of a failed save ends the sequence (and the run)
and no later save happens. Returns the writers invoked and the error, if
any, that escaped. -/
def runSaves : List (String × String) → List String × Option String
  | [] => ([], none)
  | (ft, fn) :: rest =>
    match saveTableFormat ft fn with
    | Except.ok w =>
      let r := runSaves rest
      (w :: r.1, r.2)
    | Except.error m => ([], some m)

/-- A list is never strictly below itself in the code-point order. -/
theorem charsLt_self (cs : List Char) : charsLt cs cs = false := by
  induction cs with
  | nil => rfl
  | cons a as ih => simp [charsLt, ih]

/-- Python string comparison is irreflexive: `s < s` is false. -/
theorem strLtb_self (s : String) : strLtb s s = false := charsLt_self s.toList

/-- A fold whose body returns its accumulator unchanged is the identity. -/
theorem foldl_const {α β : Type} (f : α → β → α) (hf : ∀ a b, f a b = a) :
    ∀ (l : List β) (a : α), l.foldl f a = a := by
  intro l
  induction l with
  | nil => intro a; rfl
  | cons x xs ih => intro a; rw [List.foldl_cons, hf]; exact ih a

/-- The classifier chain fires on every rational input: the first four
branches cover everything outside [-150, -30), and the final branch
condition `phi <= 90 and phi < -30` holds on all of [-150, -30). -/
theorem classify_isSome (phi : ℚ) : (classify phi).isSome = true := by
  unfold classify
  split_ifs with h1 h2 h3 h4 h5 h6
  · rfl
  · rfl
  · rfl
  · rfl
  · rfl
  · rfl
  · exfalso
    have k1 : phi ≤ 150 := le_of_not_lt fun hh => h4 (Or.inl hh)
    have k3 : phi ≤ 90 := by
      by_contra hc
      push_neg at hc
      exact h3 ⟨hc, k1⟩
    have k4 : phi ≤ 30 := by
      by_contra hc
      push_neg at hc
      exact h2 ⟨hc, k3⟩
    have k5 : phi < -30 := by
      by_contra hc
      push_neg at hc
      exact h1 ⟨hc, k4⟩
    exact h6 ⟨k3, k5⟩

/-- C1. With no explicit specification the angle enumeration loops
`for j in range(n_atoms)`, never visiting the highest atom id: with 3 atoms
(C, H, H) and bonds 1-3 and 2-3, atom 3 has the two neighbors 1 and 2, yet
the run produces no angle term at all — the claimed term (1, 3, 2) is
missing. -/
theorem derived_angles_miss_highest_atom :
    (neighborsOf [1, 2] [3, 3] 3).length = 2 ∧
      anglesEnum 3 ["C", "H", "H"] [1, 2] [3, 3] = [] := by
  decide

/-- C2. For the triangular system of 3 atoms (C, H, H) with single bonds
1-2, 1-3 and 2-3 the run reports 3 bonds, 2 angles (the loop skips atom 3),
3 dihedrals (one degenerate quadruple with i = l per bond of the ring) and
0 out-of-plane terms — not the claimed 3, 3, 0, 0. -/
theorem triangle_term_counts :
    runCountsDerived 3 ["C", "H", "H"] [1, 1, 2] [2, 3, 3] = (3, 2, 3, 0) := by
  decide

/-- C3. A dihedral of -120°, which lies in (-150, -90], is labelled
"G- = -synclinal" by the source's chain (the "A-" branch requires
`phi >= 150 and phi < -90`, which no value satisfies), not the
"-anticlinal" the claim assigns to that interval. -/
theorem classify_neg120_is_synclinal :
    classify (-120) = some "G- = -synclinal" := by
  decide

/-- C4. Every dihedral value in (-180, 180] receives exactly one label from
the classifier's conditional chain: no value falls through unlabelled, and
the first-match semantics of `if/elif` makes the label unique. -/
theorem classify_assigns_exactly_one_label (phi : ℚ) (hlo : -180 < phi)
    (hhi : phi ≤ 180) : ∃! lbl, classify phi = some lbl := by
  obtain ⟨l, hl⟩ := Option.isSome_iff_exists.mp (classify_isSome phi)
  exact ⟨l, hl, fun y hy => (Option.some.inj (hl.symm.trans hy)).symm⟩

/-- Witness for C4 at the concrete value 60. -/
theorem classify_assigns_exactly_one_label_witness :
    (-180 < (60 : ℚ) ∧ (60 : ℚ) ≤ 180) ∧ ∃! lbl, classify 60 = some lbl :=
  ⟨⟨by norm_num, by norm_num⟩,
    classify_assigns_exactly_one_label 60 (by norm_num) (by norm_num)⟩

/-- C5 counterexample. The bond (1, 2) over symbols ["H", "H"] is already
canonical in the claim's sense (symbol(1) ≤ symbol(2), an element-symbol
tie), yet applying the source's canonicalization returns (2, 1): on a tie
the `else` branch swaps the atoms instead of leaving them unchanged. -/
theorem bond_tie_canonicalization_swaps :
    symAt ["H", "H"] 1 = symAt ["H", "H"] 2 ∧
      canonBond ["H", "H"] 1 2 = (2, 1) ∧ canonBond ["H", "H"] 1 2 ≠ (1, 2) := by
  decide

/-- C5 as amended: bond canonicalization is idempotent only on strictly
ordered symbols — when `symbol(i) < symbol(j)` the tuple is returned
unchanged — while on an element-symbol tie the two atoms are swapped (so a
second application undoes the first instead of fixing the tuple). -/
theorem canonBond_strict_fixed_tie_swapped (symbol : List String) (i j : Int) :
    (strLtb (symAt symbol i) (symAt symbol j) = true → canonBond symbol i j = (i, j)) ∧
      (symAt symbol i = symAt symbol j → canonBond symbol i j = (j, i)) := by
  constructor
  · intro h
    simp [canonBond, h]
  · intro h
    have hf : strLtb (symAt symbol i) (symAt symbol j) = false := by
      rw [h]
      exact strLtb_self _
    simp [canonBond, hf]

/-- C6. With 4 atoms (H, H, H, C) and bonds 1-4, 2-4, 3-4 the atom with the
highest id, 4, has exactly 3 neighbors, yet the out-of-plane loop
`for j in range(n_atoms)` never visits it and the run produces no
out-of-plane term. -/
theorem derived_oops_miss_highest_atom :
    (neighborsOf [1, 2, 3] [4, 4, 4] 4).length = 3 ∧
      oopsEnum 4 ["H", "H", "H", "C"] [1, 2, 3] [4, 4, 4] = [] := by
  decide

/-- C7. Parsing the explicit specification "1-2 a-b" raises: the first
token yields the bond (1, 2), but the second token has two "-"-separated
fields that are not integers, and the source calls `int()` on them outside
any `try/except`, so the ValueError escapes instead of the token being
skipped with a warning. -/
theorem parse_nonint_token_raises :
    parseSpec "1-2 a-b" = Except.error "a-b" := by
  rfl

/-- C8. At the degenerate input p1 = p2 = (0,0,0), p3 = (1,0,0), the first
vector `angle` normalizes has (squared) norm 0: the source divides by
`np.linalg.norm(r21) = 0.0` with no check and no exception path, so numpy
produces NaN components (0.0/0.0) and `angle` silently returns NaN. -/
theorem angle_normalizes_zero_vector_when_coincident :
    angleDivisorsSq (0, 0, 0) (0, 0, 0) (1, 0, 0) = (0, 1) := by
  simp only [angleDivisorsSq, normSq, sub3, Prod.mk.injEq]
  norm_num

/-- C9 counterexample. A save to extension ".foo" raises the RuntimeError
with the offending extension in its message, and because nothing catches
it, the following ".csv" save of the same run is never performed: the
returned writer list is empty, so the rest of the analysis IS affected. -/
theorem save_unsupported_extension_aborts_rest :
    runSaves [(".foo", "table1.foo"), (".csv", "table2.csv")] =
      ([], some ("Save table: cannot handle format " ++ ".foo" ++ (" for file " ++ "table1.foo"))) := by
  rfl

/-- C9 as amended: extensions .csv, .json, .xlsx, .txt dispatch to the
corresponding pandas writer; any other extension raises a RuntimeError
whose message contains the offending extension, and the uncaught exception
aborts the remaining saves of the run. -/
theorem saveTableFormat_dispatch_and_abort (ft fn : String) :
    (ft = ".csv" → saveTableFormat ft fn = Except.ok "to_csv") ∧
      (ft = ".json" → saveTableFormat ft fn = Except.ok "to_json") ∧
      (ft = ".xlsx" → saveTableFormat ft fn = Except.ok "to_excel") ∧
      (ft = ".txt" → saveTableFormat ft fn = Except.ok "to_string") ∧
      (ft ∉ ([".csv", ".json", ".xlsx", ".txt"] : List String) →
        saveTableFormat ft fn =
            Except.error ("Save table: cannot handle format " ++ ft ++ (" for file " ++ fn)) ∧
          ∀ rest, runSaves ((ft, fn) :: rest) =
            ([], some ("Save table: cannot handle format " ++ ft ++ (" for file " ++ fn)))) := by
  refine ⟨fun h => by subst h; rfl, fun h => by subst h; rfl, fun h => by subst h; rfl,
    fun h => by subst h; rfl, fun h => ?_⟩
  have h1 : ¬ ft = ".csv" := by intro e; exact h (by rw [e]; decide)
  have h2 : ¬ ft = ".json" := by intro e; exact h (by rw [e]; decide)
  have h3 : ¬ ft = ".xlsx" := by intro e; exact h (by rw [e]; decide)
  have h4 : ¬ ft = ".txt" := by intro e; exact h (by rw [e]; decide)
  have hsv : saveTableFormat ft fn =
      Except.error ("Save table: cannot handle format " ++ ft ++ (" for file " ++ fn)) := by
    unfold saveTableFormat
    rw [if_neg h1, if_neg h2, if_neg h3, if_neg h4]
  refine ⟨hsv, fun rest => ?_⟩
  simp only [runSaves, hsv]

/-- C10. In a run with an explicit specification the out-of-plane stage
iterates the parsed dihedral list and appends nothing, so whatever the
specification contained — in particular any number of "oop" tokens parsed
into `target.oops` — the four index lists stay empty and the run reports
zero out-of-plane rows. -/
theorem oop_specified_stage_appends_nothing (symbol : List String) (target : Target) :
    oopStageSpecified symbol target = ([], [], [], []) :=
  foldl_const _ (fun a b => rfl) target.dihedrals _
